import Mathlib

/-
  Verification of the resilient request layer and the operation registry of
  the Rohit-Youtube-Advocate-AiBot frontend.

  The request layer lives in src/frontend/src/utils/postData.js, which holds
  two revisions of `postData` (the second starting after the document
  separator, lines 35-77 of the concatenated file).  They are embedded below
  as `V1.postData` (lines 2-27) and `V2.postData` (lines 35-77), as functions
  of an explicit environment (`Behavior`) describing what `JSON.stringify`,
  `fetch` and `response.json()` do on the one request the code issues.

  The operation registry lives in the ErrorContext provider
  (src/unnamed/part_002); it is embedded as a state type with the provider's
  four mutators/readers acting on it.

  JavaScript runtime values reachable in these functions are modelled by
  `JsValue`; JS truthiness, the `||` operator, `String()` coercion and
  property access (including the TypeError thrown on a `null` receiver) are
  modelled explicitly, because the source leans on them.
-/

/-- A JavaScript runtime value, as far as the embedded code can observe one:
`null`, booleans, (integer) numbers, strings, arrays, plain objects, and
function values (reached only as members inherited from `Object.prototype`
when a registry read walks the prototype chain; the embedded code never
calls one).  `undefined` never flows into the embedded fragments as a
first-class value: absent object properties are modelled by `Option.none`
at the access site. -/
inductive JsValue where
  | null : JsValue
  | bool (b : Bool) : JsValue
  | num (n : Int) : JsValue
  | str (s : String) : JsValue
  | arr (elems : List JsValue) : JsValue
  | obj (fields : List (String × JsValue)) : JsValue
  | fn (name : String) : JsValue
deriving Repr

/-- First binding wins, as in JS property lookup on an object literal built
left to right (the embedded code never builds duplicate keys, so the choice
is immaterial). -/
def lookupField : List (String × JsValue) → String → Option JsValue
  | [], _ => none
  | (k, v) :: rest, key => if k = key then some v else lookupField rest key

/-- Total observer used in theorem statements: the property a caller reads
off a returned value; `none` when the property is absent or the value is not
an object. -/
def JsValue.lookup : JsValue → String → Option JsValue
  | .obj fields, key => lookupField fields key
  | _, _ => none

/-- JS truthiness of a value (`NaN` does not arise in the model). -/
def JsValue.truthy : JsValue → Bool
  | .null => false
  | .bool b => b
  | .num n => n != 0
  | .str s => s != ""
  | .arr _ => true
  | .obj _ => true
  | .fn _ => true

mutual

/-- JS `String(v)` coercion, used by `new Error(x)` to form `error.message`. -/
def jsToString : JsValue → String
  | .null => "null"
  | .bool true => "true"
  | .bool false => "false"
  | .num n => toString n
  | .str s => s
  | .arr xs => jsToStringElems xs
  | .obj _ => "[object Object]"
  | .fn name => "function " ++ name ++ "() \x7b [native code] \x7d"

/-- `Array.prototype.toString`: elements joined by commas. -/
def jsToStringElems : List JsValue → String
  | [] => ""
  | [x] => jsElemString x
  | x :: xs => jsElemString x ++ "," ++ jsToStringElems xs

/-- Inside an array join, `null` renders as the empty string. -/
def jsElemString : JsValue → String
  | .null => ""
  | v => jsToString v

end

/-- JS `x || y` where `x` is a possibly-absent property value: falls through
to `y` on an absent or falsy `x`. -/
def jsOr (v : Option JsValue) (d : JsValue) : JsValue :=
  match v with
  | none => d
  | some j => if j.truthy then j else d

/-- JS `x || y` on strings (the only falsy string is `""`). -/
def strOr (s d : String) : String := if s = "" then d else s

/-- A thrown JS exception, as far as the embedded code inspects one:
`error instanceof TypeError` and `error.message`. -/
structure JsError where
  isTypeError : Bool
  message : String
deriving Repr

/-- JS property access `receiver[key]`: throws a TypeError when the receiver
is `null`, yields the property (or absence) otherwise.  Non-object receivers
(primitives, arrays, functions) are approximated as having no readable
properties; no embedded code path reads a property off one. -/
def JsValue.member : JsValue → String → Except JsError (Option JsValue)
  | .null, key =>
      .error { isTypeError := true,
               message := "Cannot read properties of null (reading " ++ key ++ ")" }
  | .obj fields, key => .ok (lookupField fields key)
  | _, _ => .ok none

/-- What the server's HTTP response looks like to the client: the status
line, and what `response.json()` resolves to — a parsed value, or a rejection
whose message is the SyntaxError's message. -/
structure FetchResponse where
  status : Nat
  statusText : String
  body : Except String JsValue
deriving Repr

/-- `response.ok` as the fetch standard defines it: status in [200, 299]. -/
def FetchResponse.ok (r : FetchResponse) : Bool :=
  200 ≤ r.status && r.status ≤ 299

/-- The environment of one `postData` call: what `JSON.stringify(data)` does,
what the single `fetch` does (resolve with a response, or reject — network
failures reject with a TypeError), and how long the fetch takes to settle.
No code path of either revision reads `delayMs`: the source sets no timer and
never aborts, so the response is consumed whenever it arrives. -/
structure Behavior where
  stringify : Except JsError Unit
  fetch : Except JsError FetchResponse
  delayMs : Nat
deriving Repr

/-- The generated fallback message of both revisions for a non-2xx response
whose body yields no usable error text. -/
def serverErrorMsg (status : Nat) (statusText : String) : String :=
  "Server error: " ++ toString status ++ " " ++ statusText

namespace V1

/-- The `try` block of revision 1 of `postData`
(src/frontend/src/utils/postData.js lines 2-27), with every point that can
throw surfaced in the `Except` channel: `JSON.stringify`, `fetch`, the
explicit `throw new Error(...)` on a non-OK response, and the rejection of
`response.json()` on a 2xx body that is not valid JSON.  On a non-OK
response, `response.json().catch(() => ({}))` turns an unparseable body into
the empty object, then `errorData.error` is read (a property access that can
itself throw if the body parsed to `null`). -/
def tryBody (b : Behavior) : Except JsError JsValue :=
  match b.stringify with
  | .error e => .error e
  | .ok _ =>
    match b.fetch with
    | .error e => .error e
    | .ok r =>
      if ! r.ok then
        let errorData : JsValue :=
          match r.body with
          | .ok j => j
          | .error _ => JsValue.obj []
        match errorData.member "error" with
        | .error e => .error e
        | .ok ev =>
            .error { isTypeError := false,
                     message := jsToString
                       (jsOr ev (JsValue.str (serverErrorMsg r.status r.statusText))) }
      else
        match r.body with
        | .error m => .error { isTypeError := false, message := m }
        | .ok result =>
            .ok (JsValue.obj [("success", JsValue.bool true), ("data", result)])

/-- The `catch` clause of revision 1: the returned error object. -/
def catchObj (e : JsError) : JsValue :=
  JsValue.obj [("success", JsValue.bool false),
               ("error", JsValue.str (strOr e.message "Unknown error occurred")),
               ("networkError", JsValue.bool e.isTypeError)]

/-- Revision 1 of `postData`: the `try` block with its `catch` clause. -/
def postData (b : Behavior) : JsValue :=
  match tryBody b with
  | .ok j => j
  | .error e => catchObj e

/-- The same function with the exception channel left visible, so that
"nothing is thrown across the boundary" is expressible: an uncaught
exception would surface as `.error`. -/
def callOutcome (b : Behavior) : Except JsError JsValue :=
  match tryBody b with
  | .ok j => .ok j
  | .error e => .ok (catchObj e)

/-- How many times revision 1 invokes `fetch` during one call: the body is
straight-line code with a single `fetch` expression and no loop, and the
`JSON.stringify(data)` argument is evaluated before the call, so a
serialization throw prevents even that one invocation. -/
def fetchCalls (b : Behavior) : Nat :=
  match b.stringify with
  | .error _ => 0
  | .ok _ => 1

end V1

namespace V2

/-- The `try` block of revision 2 of `postData`
(src/frontend/src/utils/postData.js lines 35-77).  A non-OK response parses
the error body (an unparseable body is replaced by the generated
`{error: "Server error: <status> <statusText>", status}` object) and
RETURNS `{error: errorData.error || ..., status: errorData.status || ...,
details: errorData.details || null}` — the three property reads can throw if
the body parsed to `null`.  An OK response returns the parsed body itself;
its parse rejection propagates to the outer catch. -/
def tryBody (b : Behavior) : Except JsError JsValue :=
  match b.stringify with
  | .error e => .error e
  | .ok _ =>
    match b.fetch with
    | .error e => .error e
    | .ok r =>
      if ! r.ok then
        let errorData : JsValue :=
          match r.body with
          | .ok j => j
          | .error _ =>
              JsValue.obj [("error", JsValue.str (serverErrorMsg r.status r.statusText)),
                           ("status", JsValue.num (Int.ofNat r.status))]
        match errorData.member "error" with
        | .error e => .error e
        | .ok ev =>
          match errorData.member "status" with
          | .error e => .error e
          | .ok sv =>
            match errorData.member "details" with
            | .error e => .error e
            | .ok dv =>
                .ok (JsValue.obj
                  [("error", jsOr ev (JsValue.str "An unknown error occurred")),
                   ("status", jsOr sv (JsValue.num (Int.ofNat r.status))),
                   ("details", jsOr dv JsValue.null)])
      else
        match r.body with
        | .error m => .error { isTypeError := false, message := m }
        | .ok responseData => .ok responseData

/-- The `catch` clause of revision 2: every caught exception is reported
with `networkError: true`. -/
def catchObj (e : JsError) : JsValue :=
  JsValue.obj [("error", JsValue.str
                  (strOr e.message "Network error - please check your connection")),
               ("networkError", JsValue.bool true)]

/-- Revision 2 of `postData`: the `try` block with its `catch` clause. -/
def postData (b : Behavior) : JsValue :=
  match tryBody b with
  | .ok j => j
  | .error e => catchObj e

/-- Revision 2 with the exception channel left visible. -/
def callOutcome (b : Behavior) : Except JsError JsValue :=
  match tryBody b with
  | .ok j => .ok j
  | .error e => .ok (catchObj e)

/-- Revision 2 also contains exactly one `fetch` expression and no loop. -/
def fetchCalls (b : Behavior) : Nat :=
  match b.stringify with
  | .error _ => 0
  | .ok _ => 1

end V2

namespace ErrorContext

/-- The provider state of the ErrorContext (src/unnamed/part_002): the two
`useState` objects, `errors` and `loadingStates`, each a plain-object map of
its OWN properties (`none` = no own property; the stored values are whatever
the caller passed, since `setError` and `setLoading` store their argument
unexamined).  Indexing such an object with a key that is no own property
does not stop at `undefined`: it continues along the prototype chain into
`Object.prototype` — see `readProp`. -/
structure ProviderState where
  errors : String → Option JsValue
  loadingStates : String → Option JsValue

/-- The own data members a plain `{}` inherits from `Object.prototype`
(all function values, hence truthy). -/
def objectProtoMembers : List (String × JsValue) :=
  [("constructor", JsValue.fn "Object"),
   ("hasOwnProperty", JsValue.fn "hasOwnProperty"),
   ("isPrototypeOf", JsValue.fn "isPrototypeOf"),
   ("propertyIsEnumerable", JsValue.fn "propertyIsEnumerable"),
   ("toLocaleString", JsValue.fn "toLocaleString"),
   ("toString", JsValue.fn "toString"),
   ("valueOf", JsValue.fn "valueOf"),
   ("__defineGetter__", JsValue.fn "__defineGetter__"),
   ("__defineSetter__", JsValue.fn "__defineSetter__"),
   ("__lookupGetter__", JsValue.fn "__lookupGetter__"),
   ("__lookupSetter__", JsValue.fn "__lookupSetter__")]

/-- What indexing a plain `{}` yields for a key with no own property: the
member inherited from `Object.prototype`, or `undefined` (`none`) when the
key names none.  The `__proto__` accessor yields the prototype object
itself — also truthy. -/
def objectProto (key : String) : Option JsValue :=
  if key = "__proto__" then some (JsValue.obj objectProtoMembers)
  else lookupField objectProtoMembers key

/-- The full JS property read on one of the provider maps: the own property
if present, else the prototype chain.  Object literals like `{}` and
`{...prev, [k]: v}` inherit `Object.prototype`, so a never-written id such
as `"toString"` reads the inherited (truthy) member, not `undefined`. -/
def readProp (own : String → Option JsValue) (key : String) : Option JsValue :=
  match own key with
  | some v => some v
  | none => objectProto key

/-- The state of a freshly mounted provider: `useState({})` twice. -/
def initialState : ProviderState :=
  { errors := fun _ => none, loadingStates := fun _ => none }

/-- `setError(component, error)`: `setErrors(prev => ({...prev, [component]: error}))`. -/
def setError (s : ProviderState) (component : String) (error : JsValue) : ProviderState :=
  { s with errors := fun k => if k = component then some error else s.errors k }

/-- `clearError(component)`: copies `errors` and deletes the key. -/
def clearError (s : ProviderState) (component : String) : ProviderState :=
  { s with errors := fun k => if k = component then none else s.errors k }

/-- `setLoading(component, isLoading)`:
`setLoadingStates(prev => ({...prev, [component]: isLoading}))`. -/
def setLoading (s : ProviderState) (component : String) (isLoading : JsValue) : ProviderState :=
  { s with loadingStates := fun k => if k = component then some isLoading else s.loadingStates k }

/-- `isLoading(component)`: `!!loadingStates[component]` — double negation is
JS truthiness; the indexing walks the prototype chain, so an id with no own
entry reads falsy `undefined` only when it also names no `Object.prototype`
member. -/
def isLoading (s : ProviderState) (component : String) : Bool :=
  match readProp s.loadingStates component with
  | some v => v.truthy
  | none => false

/-- The error read for an id.  The provider exposes the raw `errors` object
through the context value; consumers read `errors[component]` — an own
property, else the inherited `Object.prototype` member, else `undefined`
(here `none`).  `getError` names that read. -/
def getError (s : ProviderState) (component : String) : Option JsValue :=
  readProp s.errors component

end ErrorContext

/- Concrete environments used by the counterexamples and witnesses below. -/

/-- A server that answers 500 with an unparseable body ("always fails"). -/
def b500bad : Behavior :=
  { stringify := .ok ()
  , fetch := .ok { status := 500, statusText := "Internal Server Error"
                 , body := .error "Unexpected end of JSON input" }
  , delayMs := 0 }

/-- A server that answers 400 with an error body, for the never-retried
4xx scenario. -/
def b400 : Behavior :=
  { stringify := .ok ()
  , fetch := .ok { status := 400, statusText := "Bad Request"
                 , body := .ok (JsValue.obj [("error", JsValue.str "bad input")]) }
  , delayMs := 0 }

/-- The echo scenario: 200 with body `{"answer":"hi"}`, settling fast. -/
def echoB : Behavior :=
  { stringify := .ok ()
  , fetch := .ok { status := 200, statusText := "OK"
                 , body := .ok (JsValue.obj [("answer", JsValue.str "hi")]) }
  , delayMs := 0 }

/-- The same echo response, but the server takes 20000 ms to answer —
beyond the scenario deadline `timeoutMs = 5000` (and the default 10000). -/
def slowEchoB : Behavior :=
  { stringify := .ok ()
  , fetch := .ok { status := 200, statusText := "OK"
                 , body := .ok (JsValue.obj [("answer", JsValue.str "hi")]) }
  , delayMs := 20000 }

/-- A 200 response whose body is not valid JSON. -/
def parseFailB : Behavior :=
  { stringify := .ok ()
  , fetch := .ok { status := 200, statusText := "OK"
                 , body := .error "Unexpected token < in JSON at position 0" }
  , delayMs := 0 }

/-- A network failure: `fetch` rejects with a TypeError whose message
matches the parse failure above only where engineered to. -/
def netFailB : Behavior :=
  { stringify := .ok ()
  , fetch := .error { isTypeError := true, message := "Failed to fetch" }
  , delayMs := 0 }

/-- A 500 response whose body carries, as its `error` field, exactly the
SyntaxError text of `parseFailB` — legal, since the error body is
server-controlled. -/
def httpTrickB : Behavior :=
  { stringify := .ok ()
  , fetch := .ok { status := 500, statusText := "Internal Server Error"
                 , body := .ok (JsValue.obj
                     [("error", JsValue.str "Unexpected token < in JSON at position 0")]) }
  , delayMs := 0 }

/-- A 200 response whose (server-controlled) JSON body happens to look
exactly like revision 2's catch-clause error object. -/
def okTrickB : Behavior :=
  { stringify := .ok ()
  , fetch := .ok { status := 200, statusText := "OK"
                 , body := .ok (JsValue.obj [("error", JsValue.str "boom")
                                            , ("networkError", JsValue.bool true)]) }
  , delayMs := 0 }

/-- A network failure whose TypeError message is "boom". -/
def netBoomB : Behavior :=
  { stringify := .ok ()
  , fetch := .error { isTypeError := true, message := "boom" }
  , delayMs := 0 }

/-- A 500 response whose body parses to an object with no `error` field. -/
def b500empty : Behavior :=
  { stringify := .ok ()
  , fetch := .ok { status := 500, statusText := "Internal Server Error"
                 , body := .ok (JsValue.obj []) }
  , delayMs := 0 }

/- Helper lemmas shared by several claims. -/

/-- The generated fallback message is never the empty string, so it survives
every `||` the code pushes it through. -/
lemma serverErrorMsg_ne_empty (status : Nat) (statusText : String) :
    serverErrorMsg status statusText ≠ "" := by
  intro h
  have h2 := congrArg String.length h
  simp [serverErrorMsg, String.length_append] at h2
  exact absurd h2.1.1.1 (by decide)

/-- Every `.ok` result of the revision-1 `try` block is the success object
built on the 2xx path. -/
lemma V1.tryBody_ok_shape (b : Behavior) (j : JsValue)
    (h : V1.tryBody b = Except.ok j) :
    ∃ d, j = JsValue.obj [("success", JsValue.bool true), ("data", d)] := by
  unfold V1.tryBody at h
  rcases hs : b.stringify with e | u
  · rw [hs] at h; simp at h
  rw [hs] at h
  rcases hf : b.fetch with e | r
  · rw [hf] at h; simp at h
  rw [hf] at h
  simp only at h
  rcases hok : r.ok
  · rw [hok] at h
    simp only [Bool.not_false, if_true] at h
    rcases hb : r.body with m | result <;> rw [hb] at h <;> simp only at h
    · rcases hm : (JsValue.obj []).member "error" with e | ev <;> rw [hm] at h <;> simp at h
    · rcases hm : result.member "error" with e | ev <;> rw [hm] at h <;> simp at h
  · rw [hok] at h
    simp only [Bool.not_true, Bool.false_eq_true, if_false] at h
    rcases hb : r.body with m | result <;> rw [hb] at h <;> simp at h
    exact ⟨result, h.symm⟩

/-- The revision-1 `try` block only succeeds when the response status was in
[200, 299]. -/
lemma V1.tryBody_ok_status (b : Behavior) (r : FetchResponse) (j : JsValue)
    (hf : b.fetch = Except.ok r) (h : V1.tryBody b = Except.ok j) :
    r.ok = true := by
  by_contra hok
  rw [Bool.not_eq_true] at hok
  unfold V1.tryBody at h
  rcases hs : b.stringify with e | u
  · rw [hs] at h; simp at h
  rw [hs, hf] at h
  simp only at h
  rw [hok] at h
  simp only [Bool.not_false, if_true] at h
  rcases hb : r.body with m | result <;> rw [hb] at h <;> simp only at h
  · rcases hm : (JsValue.obj []).member "error" with e | ev <;> rw [hm] at h <;> simp at h
  · rcases hm : result.member "error" with e | ev <;> rw [hm] at h <;> simp at h

/-- Whatever the environment does, revision 1 returns an object whose
`success` property is exactly `true` or exactly `false`. -/
lemma V1.postData_success_lookup (b : Behavior) :
    (V1.postData b).lookup "success" = some (JsValue.bool true)
    ∨ (V1.postData b).lookup "success" = some (JsValue.bool false) := by
  unfold V1.postData
  rcases h : V1.tryBody b with e | j
  · right
    simp [V1.catchObj, JsValue.lookup, lookupField]
  · left
    obtain ⟨d, hd⟩ := V1.tryBody_ok_shape b j h
    simp [hd, JsValue.lookup, lookupField]

/-- A response outside [200, 299] always lands revision 1 in its catch
clause, whose object reports `success: false`. -/
lemma V1.lookup_success_false_of_not_ok (b : Behavior) (r : FetchResponse)
    (hf : b.fetch = Except.ok r) (hok : r.ok = false) :
    (V1.postData b).lookup "success" = some (JsValue.bool false) := by
  unfold V1.postData
  rcases h : V1.tryBody b with e | j
  · simp [V1.catchObj, JsValue.lookup, lookupField]
  · exact absurd (V1.tryBody_ok_status b r j hf h) (by simp [hok])

/-- C1, counterexample.  The claim reads: against a server that always
responds 500 and a configuration with `maxAttempts = 3`, exactly 3 attempts
are made.  The code has no retry loop (and no `maxAttempts` parameter at
all): one call against the always-500 server invokes `fetch` exactly once,
never three times. -/
theorem C1_counterexample : ¬ (V1.fetchCalls b500bad = 3) := by
  intro h
  simp [V1.fetchCalls, b500bad] at h

/-- C1, amended.  Revision 1 of `postData` performs at most one fetch
attempt per call — exactly one whenever serialization succeeds — with no
backoff wait and no retry: an always-500 server yields the failure outcome
(`success: false`) of that single attempt, a 400 response likewise produces
exactly one attempt, and a 2xx response whose body parses yields the success
outcome from that same single attempt. -/
theorem C1_single_attempt :
    (∀ b : Behavior, V1.fetchCalls b ≤ 1)
    ∧ (∀ b : Behavior, b.stringify = Except.ok () → V1.fetchCalls b = 1)
    ∧ (∀ (b : Behavior) (r : FetchResponse), b.fetch = Except.ok r → r.status = 500 →
        (V1.postData b).lookup "success" = some (JsValue.bool false))
    ∧ (∀ (b : Behavior) (r : FetchResponse) (j : JsValue), b.stringify = Except.ok () →
        b.fetch = Except.ok r → 200 ≤ r.status → r.status ≤ 299 → r.body = Except.ok j →
        (V1.postData b).lookup "success" = some (JsValue.bool true)) := by
  refine ⟨?_, ?_, ?_, ?_⟩
  · intro b
    rcases hs : b.stringify with e | u <;> simp [V1.fetchCalls, hs]
  · intro b hs
    simp [V1.fetchCalls, hs]
  · intro b r hf h5
    refine V1.lookup_success_false_of_not_ok b r hf ?_
    unfold FetchResponse.ok
    rw [h5]
    decide
  · intro b r j hs hf h1 h2 hb
    have hok : r.ok = true := by
      unfold FetchResponse.ok
      simp [h1, h2]
    simp [V1.postData, V1.tryBody, hs, hf, hok, hb, JsValue.lookup, lookupField]

/-- C1, witness: the amended theorem applied to the always-500 server and to
the 400 scenario. -/
theorem C1_single_attempt_witness :
    b500bad.fetch = Except.ok { status := 500, statusText := "Internal Server Error"
                              , body := Except.error "Unexpected end of JSON input" }
    ∧ (V1.postData b500bad).lookup "success" = some (JsValue.bool false)
    ∧ V1.fetchCalls b400 = 1 :=
  ⟨rfl, C1_single_attempt.2.2.1 b500bad _ rfl rfl, C1_single_attempt.2.1 b400 rfl⟩

/-- C2, counterexample.  The claim reads: when the server does not respond
within `timeoutMs`, the request is aborted and the outcome is a Timeout
failure.  The spec scenario deadline is `timeoutMs = 5000`; against a server
that takes 20000 ms, revision 1 simply consumes the late response and
returns the ordinary success object (revision 2 likewise returns the parsed
body) — nothing is aborted and no timeout-shaped failure exists. -/
theorem C2_counterexample :
    5000 < slowEchoB.delayMs
    ∧ V1.postData slowEchoB
        = JsValue.obj [("success", JsValue.bool true),
                       ("data", JsValue.obj [("answer", JsValue.str "hi")])]
    ∧ V2.postData slowEchoB = JsValue.obj [("answer", JsValue.str "hi")] :=
  ⟨by decide, rfl, rfl⟩

/-- C2, amended.  Neither revision starts a cancellation timer: the outcome
of a call is independent of how long the request takes to settle, no
in-flight request is ever aborted, and no Timeout failure kind exists. -/
theorem C2_no_timer :
    ∀ (b : Behavior) (d : Nat),
      V1.postData { b with delayMs := d } = V1.postData b
      ∧ V2.postData { b with delayMs := d } = V2.postData b
      ∧ V1.fetchCalls { b with delayMs := d } = V1.fetchCalls b :=
  fun _ _ => ⟨rfl, rfl, rfl⟩

/-- C3: the request client never raises.  Every exception a call can
encounter — serialization failure, network-level fetch rejection, a non-2xx
status, an unparseable body — is resolved inside the function, which always
returns an outcome value: the call outcome of either revision, with the
exception channel left visible, is `.ok` of exactly the returned value. -/
theorem C3_no_exception_escapes :
    ∀ b : Behavior,
      (∃ j, V1.callOutcome b = Except.ok j) ∧ (∃ j, V2.callOutcome b = Except.ok j)
      ∧ V1.callOutcome b = Except.ok (V1.postData b)
      ∧ V2.callOutcome b = Except.ok (V2.postData b) := by
  intro b
  have h1 : V1.callOutcome b = Except.ok (V1.postData b) := by
    unfold V1.callOutcome V1.postData
    rcases h : V1.tryBody b with e | j <;> rfl
  have h2 : V2.callOutcome b = Except.ok (V2.postData b) := by
    unfold V2.callOutcome V2.postData
    rcases h : V2.tryBody b with e | j <;> rfl
  exact ⟨⟨_, h1⟩, ⟨_, h2⟩, h1, h2⟩

/-- C4, counterexample.  The claim reads: a 2xx response with an invalid
JSON body yields a ParseError failure classified distinctly from
NetworkError and from HttpError.  In revision 1, the parse failure and an
HTTP 500 whose error body carries the same text produce byte-identical
outcome objects; in revision 2, the parse failure is reported with the
`networkError: true` marker — exactly the classification of a genuine
network failure. -/
theorem C4_counterexample :
    V1.postData parseFailB = V1.postData httpTrickB
    ∧ (V2.postData parseFailB).lookup "networkError" = some (JsValue.bool true)
    ∧ (V2.postData netFailB).lookup "networkError" = some (JsValue.bool true) := by
  refine ⟨?_, rfl, rfl⟩
  simp +decide [V1.postData, V1.tryBody, V1.catchObj, parseFailB, httpTrickB,
    JsValue.member, lookupField, jsOr, JsValue.truthy, jsToString, strOr,
    FetchResponse.ok]

/-- C4, amended.  For a response with status in [200, 299] whose body is not
valid JSON, revision 1 returns `{success: false, error: <parse message>,
networkError: false}` — the same shape and flags as its HTTP-error outcomes —
and revision 2 returns `{error: <parse message>, networkError: true}`,
classifying the parse failure as a network error; no distinct ParseError
variant exists. -/
theorem C4_parse_failure_outcome :
    ∀ (b : Behavior) (r : FetchResponse) (m : String),
      b.stringify = Except.ok () → b.fetch = Except.ok r → r.ok = true →
      r.body = Except.error m →
      V1.postData b = JsValue.obj
          [("success", JsValue.bool false),
           ("error", JsValue.str (strOr m "Unknown error occurred")),
           ("networkError", JsValue.bool false)]
      ∧ V2.postData b = JsValue.obj
          [("error", JsValue.str (strOr m "Network error - please check your connection")),
           ("networkError", JsValue.bool true)] := by
  intro b r m hs hf hok hb
  constructor
  · simp [V1.postData, V1.tryBody, V1.catchObj, hs, hf, hok, hb]
  · simp [V2.postData, V2.tryBody, V2.catchObj, hs, hf, hok, hb]

/-- C4, witness: the amended theorem applied to the concrete 200 response
with an unparseable body. -/
theorem C4_parse_failure_outcome_witness :
    parseFailB.stringify = Except.ok ()
    ∧ (V1.postData parseFailB = JsValue.obj
          [("success", JsValue.bool false),
           ("error", JsValue.str
              (strOr "Unexpected token < in JSON at position 0" "Unknown error occurred")),
           ("networkError", JsValue.bool false)]
      ∧ V2.postData parseFailB = JsValue.obj
          [("error", JsValue.str
              (strOr "Unexpected token < in JSON at position 0"
                     "Network error - please check your connection")),
           ("networkError", JsValue.bool true)]) :=
  ⟨rfl, C4_parse_failure_outcome parseFailB _ _ rfl rfl (by decide) rfl⟩

/-- C5, counterexample.  The claim reads: a 200 response with valid JSON
yields `Success{status: 200, data: <parsed body>}`.  On the echo scenario,
neither revision's outcome carries any `status` property (revision 2 does
not even carry a success marker — it returns the bare parsed body). -/
theorem C5_counterexample :
    (V1.postData echoB).lookup "status" = none
    ∧ (V2.postData echoB).lookup "status" = none
    ∧ (V2.postData echoB).lookup "success" = none :=
  ⟨rfl, rfl, rfl⟩

/-- C5, amended.  A 200 response with a valid JSON body yields
`{success: true, data: <parsed body>}` from revision 1 and the parsed body
itself from revision 2; the response status is not part of either outcome.
In particular the echo call yields `{success: true, data: {answer: "hi"}}`
respectively `{answer: "hi"}`. -/
theorem C5_success_shape :
    ∀ (b : Behavior) (r : FetchResponse) (j : JsValue),
      b.stringify = Except.ok () → b.fetch = Except.ok r → r.status = 200 →
      r.body = Except.ok j →
      V1.postData b = JsValue.obj [("success", JsValue.bool true), ("data", j)]
      ∧ V2.postData b = j := by
  intro b r j hs hf h200 hb
  have hok : r.ok = true := by
    unfold FetchResponse.ok
    rw [h200]
    decide
  constructor
  · simp [V1.postData, V1.tryBody, hs, hf, hok, hb]
  · simp [V2.postData, V2.tryBody, hs, hf, hok, hb]

/-- C5, witness: the amended theorem applied to the echo scenario. -/
theorem C5_success_shape_witness :
    echoB.stringify = Except.ok ()
    ∧ (V1.postData echoB
        = JsValue.obj [("success", JsValue.bool true),
                       ("data", JsValue.obj [("answer", JsValue.str "hi")])]
      ∧ V2.postData echoB = JsValue.obj [("answer", JsValue.str "hi")]) :=
  ⟨rfl, C5_success_shape echoB _ _ rfl rfl rfl rfl⟩

/-- C6, counterexample.  The claim reads: a non-2xx response yields an
HttpError failure that carries the response status, with the generated
"Server error: <status> <statusText>" message whenever the error body is
missing or unparseable.  Revision 1 does generate that message for the 500
with unparseable body — but its outcome carries no status at all; and
revision 2, on a 500 whose body parses to an object without an `error`
field, reports "An unknown error occurred" instead of the generated
message. -/
theorem C6_counterexample :
    (V1.postData b500bad).lookup "status" = none
    ∧ (V1.postData b500bad).lookup "error"
        = some (JsValue.str "Server error: 500 Internal Server Error")
    ∧ (V2.postData b500empty).lookup "error"
        = some (JsValue.str "An unknown error occurred") := by
  refine ⟨?_, ?_, rfl⟩ <;>
  simp +decide [V1.postData, V1.tryBody, V1.catchObj, b500bad, JsValue.member,
    lookupField, jsOr, JsValue.truthy, jsToString, strOr, FetchResponse.ok,
    serverErrorMsg, JsValue.lookup]

/-- C6, amended.  For a response with status outside [200, 299] whose body
is unparseable: revision 1 returns `{success: false, error: "Server error:
<status> <statusText>", networkError: false}` — the generated message, but
no status; revision 2 returns `{error: "Server error: <status>
<statusText>", status: <status>, details: null}` — message and status both.
(When the body parses but lacks an `error` field, revision 2 falls back to
"An unknown error occurred" instead, as the counterexample shows.) -/
theorem C6_http_error_shape :
    ∀ (b : Behavior) (r : FetchResponse) (m : String),
      b.stringify = Except.ok () → b.fetch = Except.ok r → r.ok = false →
      r.body = Except.error m →
      V1.postData b = JsValue.obj
        [("success", JsValue.bool false),
         ("error", JsValue.str (serverErrorMsg r.status r.statusText)),
         ("networkError", JsValue.bool false)]
      ∧ V2.postData b = JsValue.obj
        [("error", JsValue.str (serverErrorMsg r.status r.statusText)),
         ("status", JsValue.num (Int.ofNat r.status)),
         ("details", JsValue.null)] := by
  intro b r m hs hf hok hb
  have hmsg := serverErrorMsg_ne_empty r.status r.statusText
  constructor
  · simp [V1.postData, V1.tryBody, V1.catchObj, hs, hf, hok, hb, JsValue.member,
          lookupField, jsOr, jsToString, strOr, hmsg]
  · simp [V2.postData, V2.tryBody, hs, hf, hok, hb, JsValue.member, lookupField,
          jsOr, JsValue.truthy, hmsg]

/-- C6, witness: the amended theorem applied to the 500 response with an
unparseable body. -/
theorem C6_http_error_shape_witness :
    b500bad.stringify = Except.ok ()
    ∧ (V1.postData b500bad = JsValue.obj
          [("success", JsValue.bool false),
           ("error", JsValue.str (serverErrorMsg 500 "Internal Server Error")),
           ("networkError", JsValue.bool false)]
      ∧ V2.postData b500bad = JsValue.obj
          [("error", JsValue.str (serverErrorMsg 500 "Internal Server Error")),
           ("status", JsValue.num (Int.ofNat 500)),
           ("details", JsValue.null)]) :=
  ⟨rfl, C6_http_error_shape b500bad _ _ rfl rfl (by decide) rfl⟩

/-- C7, counterexample.  The claim reads: every returned outcome is
success-shaped or failure-shaped, never both, distinguishable by the caller.
Revision 2 returns the raw parsed body on success, so a 200 response whose
JSON body happens to be `{"error": "boom", "networkError": true}` produces a
value byte-identical to the outcome of an actual network failure with
message "boom": the two variants are not distinguishable. -/
theorem C7_counterexample :
    V2.postData okTrickB = V2.postData netBoomB
    ∧ (V2.postData okTrickB).lookup "networkError" = some (JsValue.bool true)
    ∧ netBoomB.fetch = Except.error { isTypeError := true, message := "boom" } :=
  ⟨rfl, rfl, rfl⟩

/-- C7, amended.  Revision 1 does satisfy the invariant: every outcome is an
object whose `success` property is exactly `true` or exactly `false`, and
never both.  Revision 2 offers no such discriminator (its success outcome is
the server-controlled body, as the counterexample shows). -/
theorem C7_outcome_variants :
    ∀ b : Behavior,
      ((V1.postData b).lookup "success" = some (JsValue.bool true)
        ∧ (V1.postData b).lookup "success" ≠ some (JsValue.bool false))
      ∨ ((V1.postData b).lookup "success" = some (JsValue.bool false)
        ∧ (V1.postData b).lookup "success" ≠ some (JsValue.bool true)) := by
  intro b
  rcases V1.postData_success_lookup b with h | h
  · exact Or.inl ⟨h, by simp [h]⟩
  · exact Or.inr ⟨h, by simp [h]⟩

/-- C8, counterexample.  The claim reads: for every operation id that has
never been written, `isLoading(id)` returns false and the error read yields
null.  The provider backs both maps with plain `{}` objects, whose indexing
walks the prototype chain: on a fresh provider, the never-written id
"toString" reads the inherited (truthy) `Object.prototype.toString`, so
`isLoading("toString")` is `true`, and the error read for the never-written
id "constructor" yields the inherited `Object` constructor function, not
null. -/
theorem C8_counterexample :
    ErrorContext.isLoading ErrorContext.initialState "toString" = true
    ∧ ErrorContext.getError ErrorContext.initialState "constructor"
        = some (JsValue.fn "Object") :=
  ⟨rfl, rfl⟩

/-- C8, amended.  For every operation id that has never been written and
does not collide with an `Object.prototype` member name (`constructor`,
`hasOwnProperty`, `isPrototypeOf`, `propertyIsEnumerable`,
`toLocaleString`, `toString`, `valueOf`, the four accessor-definition
methods, and `__proto__`), `isLoading(id)` returns false and the error read
yields `undefined`; more generally any state with no own entry for such an
id reads as the default.  Both readers, like all four registry operations,
are total functions of the state — no id makes them throw.  Ids that do
collide instead read the truthy inherited member until they are first
written. -/
theorem C8_registry_defaults :
    (∀ id : String, ErrorContext.objectProto id = none →
        ErrorContext.isLoading ErrorContext.initialState id = false
        ∧ ErrorContext.getError ErrorContext.initialState id = none)
    ∧ (∀ (s : ErrorContext.ProviderState) (id : String),
        s.loadingStates id = none → ErrorContext.objectProto id = none →
        ErrorContext.isLoading s id = false)
    ∧ (∀ (s : ErrorContext.ProviderState) (id : String),
        s.errors id = none → ErrorContext.objectProto id = none →
        ErrorContext.getError s id = none) := by
  refine ⟨?_, ?_, ?_⟩
  · intro id hp
    exact ⟨by simp [ErrorContext.isLoading, ErrorContext.readProp, ErrorContext.initialState, hp],
           by simp [ErrorContext.getError, ErrorContext.readProp, ErrorContext.initialState, hp]⟩
  · intro s id h hp
    simp [ErrorContext.isLoading, ErrorContext.readProp, h, hp]
  · intro s id h hp
    simp [ErrorContext.getError, ErrorContext.readProp, h, hp]

/-- C8, witness: the general default read applied to a fresh registry and a
concrete id that collides with nothing on the prototype. -/
theorem C8_registry_defaults_witness :
    ErrorContext.initialState.loadingStates "z" = none
    ∧ ErrorContext.objectProto "z" = none
    ∧ ErrorContext.isLoading ErrorContext.initialState "z" = false :=
  ⟨rfl, rfl, C8_registry_defaults.2.1 ErrorContext.initialState "z" rfl rfl⟩

/-- C9: same-id field independence.  After `setLoading("a", true)` then
`setError("a", "boom")`, the id is loading and its error reads "boom"; a
further `setLoading("a", false)` leaves the error at "boom".  In general
`setError` never touches the `loadingStates` map and `setLoading` never
touches the `errors` map — they update disjoint `useState` objects. -/
theorem C9_field_independence :
    (ErrorContext.isLoading
        (ErrorContext.setError
          (ErrorContext.setLoading ErrorContext.initialState "a" (JsValue.bool true))
          "a" (JsValue.str "boom")) "a" = true
      ∧ ErrorContext.getError
          (ErrorContext.setError
            (ErrorContext.setLoading ErrorContext.initialState "a" (JsValue.bool true))
            "a" (JsValue.str "boom")) "a" = some (JsValue.str "boom")
      ∧ ErrorContext.getError
          (ErrorContext.setLoading
            (ErrorContext.setError
              (ErrorContext.setLoading ErrorContext.initialState "a" (JsValue.bool true))
              "a" (JsValue.str "boom"))
            "a" (JsValue.bool false)) "a" = some (JsValue.str "boom"))
    ∧ (∀ (s : ErrorContext.ProviderState) (id : String) (msg : JsValue),
        (ErrorContext.setError s id msg).loadingStates = s.loadingStates)
    ∧ (∀ (s : ErrorContext.ProviderState) (id : String) (v : JsValue),
        (ErrorContext.setLoading s id v).errors = s.errors) :=
  ⟨⟨rfl, rfl, rfl⟩, fun _ _ _ => rfl, fun _ _ _ => rfl⟩

/-- C10: cross-id isolation.  A mutation that targets id `x` leaves both the
loading flag and the error read of every other id `y` exactly as they were,
for each of the three mutators. -/
theorem C10_cross_id_isolation :
    ∀ (s : ErrorContext.ProviderState) (x y : String) (m v : JsValue), x ≠ y →
      ErrorContext.getError (ErrorContext.setError s x m) y = ErrorContext.getError s y
      ∧ ErrorContext.isLoading (ErrorContext.setError s x m) y = ErrorContext.isLoading s y
      ∧ ErrorContext.getError (ErrorContext.clearError s x) y = ErrorContext.getError s y
      ∧ ErrorContext.isLoading (ErrorContext.clearError s x) y = ErrorContext.isLoading s y
      ∧ ErrorContext.getError (ErrorContext.setLoading s x v) y = ErrorContext.getError s y
      ∧ ErrorContext.isLoading (ErrorContext.setLoading s x v) y
          = ErrorContext.isLoading s y := by
  intro s x y m v hxy
  have hyx : y ≠ x := Ne.symm hxy
  refine ⟨?_, rfl, ?_, rfl, rfl, ?_⟩
  · simp [ErrorContext.getError, ErrorContext.setError, ErrorContext.readProp, hyx]
  · simp [ErrorContext.getError, ErrorContext.clearError, ErrorContext.readProp, hyx]
  · simp [ErrorContext.isLoading, ErrorContext.setLoading, ErrorContext.readProp, hyx]

/-- C10, witness: isolation applied to concrete distinct ids "a" and "b". -/
theorem C10_cross_id_isolation_witness :
    ("a" : String) ≠ "b"
    ∧ ErrorContext.getError
        (ErrorContext.setError ErrorContext.initialState "a" (JsValue.str "boom")) "b"
      = ErrorContext.getError ErrorContext.initialState "b" :=
  ⟨by decide,
   (C10_cross_id_isolation ErrorContext.initialState "a" "b"
      (JsValue.str "boom") (JsValue.bool true) (by decide)).1⟩
